import Mathlib

/-!
# Verification of the myskoda-mqtt bridge against its specification

Shallow embedding of the relevant parts of `src/myskoda_mqtt/`
(`mqtt_client.py`, `skoda_api.py`, `main.py`, `config.py`) in Lean 4,
together with theorems settling the specification claims.

Conventions:
* Python dict payloads become structures with `Option` fields mirroring the
  `'key' in d` checks and `.get(key, default)` accesses of the source.
* Side effects (bus publishes, subscriptions, sleeps, log lines, upstream
  calls) are reified as explicit event lists returned by each function.
* Machine time (`datetime.now()`) is an `Int` parameter counting seconds;
  `timedelta(minutes=5)` is 300 seconds.
* Places where the source may raise are modelled with `Except` /
  explicit error components; Python `try/except` becomes a `match` on them.
-/

namespace MySkoda

/-- Payload of a bus publish: the source publishes either a number
(`battery.get('soc', 0)`) or a string (`'ON'`, `'LOCKED'`, ISO timestamps). -/
inductive PayloadV where
  | int (n : Int)
  | str (s : String)
deriving DecidableEq, Repr

/-- One `client.publish(topic, payload, retain=...)` call. -/
structure Pub where
  topic : String
  payload : PayloadV
  retain : Bool
deriving DecidableEq, Repr

/-- Observable actions of the bridge, reified as events. -/
inductive Event where
  | pub (p : Pub)
  | subscribe (topic : String)
  | disconnectBus
  | sleep (secs : Nat)
  | logInfo (msg : String)
  | logWarn (msg : String)
  | logErr (msg : String)
deriving DecidableEq, Repr

/-- Whether an event is a bus publish. -/
def Event.isPub : Event → Bool
  | .pub _ => true
  | _ => false

/-! ## Vehicle state data (`state_data` dict, `mqtt_client.publish_state`)

`publish_state` receives a Python dict; the inner keys are read with
`.get(key, default)`, the sections with `'battery' in state_data` etc.
We mirror that with `Option` fields. -/

/-- The `state_data['battery']` sub-dict. -/
structure BatteryData where
  soc : Option Int
  range_km : Option Int
  charging : Option Bool
  plugged_in : Option Bool
deriving DecidableEq, Repr

/-- The `state_data['doors']` sub-dict. -/
structure DoorsData where
  locked : Option Bool
deriving DecidableEq, Repr

/-- The `state_data` dict handed to `publish_state`. -/
structure StateData where
  battery : Option BatteryData
  doors : Option DoorsData
  last_updated : Option String
deriving DecidableEq, Repr

/-! ## MQTT client (`mqtt_client.py`, class `MQTTClient`) -/

/-- The fields of `MQTTClient` that the published behaviour depends on. -/
structure MQTTClient where
  topic_prefix : String
  connected : Bool
deriving DecidableEq, Repr

namespace MQTTClient

/-- `MQTTClient.publish_state` (mqtt_client.py lines 128-159): if not
connected, skip; otherwise publish each present field of the snapshot to its
own retained topic. Returns the list of issued publishes. -/
def publish_state (c : MQTTClient) (state_data : StateData) : List Pub :=
  if !c.connected then
    []
  else
    (match state_data.battery with
     | some battery =>
       [ ⟨c.topic_prefix ++ "/battery/soc", .int (battery.soc.getD 0), true⟩,
         ⟨c.topic_prefix ++ "/battery/range", .int (battery.range_km.getD 0), true⟩,
         ⟨c.topic_prefix ++ "/battery/charging",
           .str (if battery.charging.getD false then "ON" else "OFF"), true⟩,
         ⟨c.topic_prefix ++ "/battery/plugged_in",
           .str (if battery.plugged_in.getD false then "ON" else "OFF"), true⟩ ]
     | none => []) ++
    (match state_data.doors with
     | some doors =>
       [ ⟨c.topic_prefix ++ "/doors/locked",
           .str (if doors.locked.getD false then "LOCKED" else "UNLOCKED"), true⟩ ]
     | none => []) ++
    (match state_data.last_updated with
     | some ts => [ ⟨c.topic_prefix ++ "/last_updated", .str ts, true⟩ ]
     | none => [])

/-- `MQTTClient.publish_availability` (mqtt_client.py lines 161-170): publish
`online`/`offline` retained, with no connectivity check. -/
def publish_availability (c : MQTTClient) (available : Bool) : List Pub :=
  [ ⟨c.topic_prefix ++ "/availability",
      .str (if available then "online" else "offline"), true⟩ ]

/-- The command subscription issued in `MQTTClient._on_connect`
(mqtt_client.py line 80): `f"{self.topic_prefix}/command/#"`. -/
def subscribeTopic (c : MQTTClient) : String :=
  c.topic_prefix ++ "/command/#"

/-- `MQTTClient.disconnect` (mqtt_client.py lines 66-71): stop the loop,
disconnect, clear the connected flag. -/
def disconnect (c : MQTTClient) : MQTTClient × List Event :=
  ({ c with connected := false }, [.disconnectBus])

end MQTTClient

/-! ## Claim C8 -/

/-- **C8.** When the client's `connected` flag is false, `publish_state`
returns without publishing any message, whereas `publish_availability`
publishes unconditionally, regardless of the `connected` flag. -/
theorem publish_state_requires_connected_availability_does_not :
    ∀ (c : MQTTClient) (sd : StateData) (avail : Bool),
      (c.connected = false → c.publish_state sd = []) ∧
      c.publish_availability avail =
        [ ⟨c.topic_prefix ++ "/availability",
            .str (if avail then "online" else "offline"), true⟩ ] := by
  intro c sd avail
  constructor
  · intro h
    simp [MQTTClient.publish_state, h]
  · rfl

/-- Witness for C8: a concrete disconnected client drops a concrete snapshot
but still publishes availability. -/
theorem publish_state_requires_connected_availability_does_not_witness :
    (MQTTClient.publish_state ⟨"skoda/enyaq", false⟩
        ⟨some ⟨some 75, some 280, some false, some true⟩, some ⟨some true⟩,
          some "2026-01-01T00:00:00"⟩ = []) ∧
    MQTTClient.publish_availability ⟨"skoda/enyaq", false⟩ false =
      [ ⟨"skoda/enyaq/availability", .str "offline", true⟩ ] := by
  refine ⟨?_, ?_⟩
  · exact (publish_state_requires_connected_availability_does_not
      ⟨"skoda/enyaq", false⟩
      ⟨some ⟨some 75, some 280, some false, some true⟩, some ⟨some true⟩,
        some "2026-01-01T00:00:00"⟩ false).1 rfl
  · exact (publish_state_requires_connected_availability_does_not
      ⟨"skoda/enyaq", false⟩
      ⟨some ⟨some 75, some 280, some false, some true⟩, some ⟨some true⟩,
        some "2026-01-01T00:00:00"⟩ false).2

/-! ## Configuration (`config.py`, class `Config`)

The environment is a partial map name → value (`os.getenv`), the parsed JSON
config file another partial map key → value. Following the source, every
setting is selected as `os.getenv(NAME, file_config.get(key, default))`,
where `file_config` is empty when no file path was given or the path does
not exist. File values are modelled as strings (their JSON text). -/

/-- Partial string-keyed map: `os.environ` or the parsed config file. -/
def KVMap := String → Option String

/-- Point update of a map: the environment/file with `n` set to `v`. -/
def KVMap.set (m : KVMap) (n v : String) : KVMap :=
  fun k => if k = n then some v else m k

/-- Point removal: the environment/file with `n` unset. -/
def KVMap.unset (m : KVMap) (n : String) : KVMap :=
  fun k => if k = n then none else m k

/-- The empty map (`file_config = {}`). -/
def KVMap.empty : KVMap := fun _ => none

/-- `os.getenv(name, default)`. -/
def getenv (env : KVMap) (name dflt : String) : String :=
  (env name).getD dflt

/-- The `file_config` dict of `Config.__init__` (config.py lines 26-30):
the parsed file when the path was given and exists, otherwise empty. -/
def file_config (fileExists : Bool) (file : KVMap) : KVMap :=
  fun k => if fileExists then file k else none

/-- `os.getenv(NAME, file_config.get(key, default))` — the selection pattern
used by every setting in `Config.__init__` (config.py lines 33-53). -/
def cfgSelect (env : KVMap) (fileExists : Bool) (file : KVMap)
    (envName fileKey dflt : String) : String :=
  getenv env envName ((file_config fileExists file fileKey).getD dflt)

/-- The `Config` object's fields (config.py lines 33-53). -/
structure Config where
  skoda_username : String
  skoda_password : String
  skoda_vin : String
  mqtt_broker : String
  mqtt_port : Int
  mqtt_username : String
  mqtt_password : String
  mqtt_topic_prefix : String
  poll_interval : Int
  command_timeout : Int
  ha_discovery : Bool
  ha_discovery_prefix : String
  log_level : String
deriving DecidableEq, Repr

/-- `Config.__init__` (config.py lines 18-56): select each setting from the
environment, else the config file (only if it exists), else the built-in
default; convert (`int(...)`, `.lower() == 'true'`, `.upper()`); then
validate the required identity fields. `int()` failure and validation
failure both raise `ValueError`, modelled as `Except.error`. -/
def Config.init (env : KVMap) (fileExists : Bool) (file : KVMap) :
    Except String Config :=
  let sel := cfgSelect env fileExists file
  match (sel "MQTT_PORT" "mqtt_port" "1883").toInt?,
      (sel "POLL_INTERVAL" "poll_interval" "300").toInt?,
      (sel "COMMAND_TIMEOUT" "command_timeout" "30").toInt? with
  | some port, some pollInterval, some commandTimeout =>
    let c : Config :=
      { skoda_username := sel "SKODA_USERNAME" "skoda_username" ""
        skoda_password := sel "SKODA_PASSWORD" "skoda_password" ""
        skoda_vin := sel "SKODA_VIN" "skoda_vin" ""
        mqtt_broker := sel "MQTT_BROKER" "mqtt_broker" "127.0.0.1"
        mqtt_port := port
        mqtt_username := sel "MQTT_USERNAME" "mqtt_username" ""
        mqtt_password := sel "MQTT_PASSWORD" "mqtt_password" ""
        mqtt_topic_prefix := sel "MQTT_TOPIC_PREFIX" "mqtt_topic_prefix" "skoda/enyaq"
        poll_interval := pollInterval
        command_timeout := commandTimeout
        ha_discovery := (sel "HA_DISCOVERY" "ha_discovery" "true").toLower == "true"
        ha_discovery_prefix := sel "HA_DISCOVERY_PREFIX" "ha_discovery_prefix" "homeassistant"
        log_level := (sel "LOG_LEVEL" "log_level" "INFO").toUpper }
    if c.skoda_username = "" ∨ c.skoda_password = "" ∨ c.skoda_vin = "" then
      .error "Missing required configuration"
    else
      .ok c
  | _, _, _ => .error "invalid literal for int()"

/-- Values of the dict returned by `Config.to_dict`. -/
inductive CVal where
  | s (v : String)
  | i (v : Int)
  | b (v : Bool)
deriving DecidableEq, Repr

/-- `Config.to_dict` (config.py lines 70-100), as a key-ordered association
list mirroring the dict's insertion order; passwords are replaced by `'***'`
when truthy (non-empty), `''` otherwise. -/
def Config.to_dict (c : Config) (include_secrets : Bool) :
    List (String × CVal) :=
  [ ("mqtt_broker", .s c.mqtt_broker),
    ("mqtt_port", .i c.mqtt_port),
    ("mqtt_topic_prefix", .s c.mqtt_topic_prefix),
    ("poll_interval", .i c.poll_interval),
    ("command_timeout", .i c.command_timeout),
    ("ha_discovery", .b c.ha_discovery),
    ("ha_discovery_prefix", .s c.ha_discovery_prefix),
    ("log_level", .s c.log_level) ] ++
  (if include_secrets then
    [ ("skoda_username", .s c.skoda_username),
      ("skoda_password", .s (if c.skoda_password ≠ "" then "***" else "")),
      ("skoda_vin", .s c.skoda_vin),
      ("mqtt_username", .s c.mqtt_username),
      ("mqtt_password", .s (if c.mqtt_password ≠ "" then "***" else "")) ]
  else [])

/-- The credential keys of the configuration. -/
def credentialKeys : List String :=
  ["skoda_username", "skoda_password", "skoda_vin", "mqtt_username",
   "mqtt_password"]

/-- Enumeration of the configuration settings of `Config.__init__`. -/
inductive Setting where
  | skodaUsername | skodaPassword | skodaVin
  | mqttBroker | mqttPort | mqttUsername | mqttPassword | mqttTopicPrefix
  | pollInterval | commandTimeout
  | haDiscovery | haDiscoveryPrefix | logLevel
deriving DecidableEq, Repr

/-- Environment-variable name of each setting (config.py lines 33-53). -/
def Setting.envName : Setting → String
  | .skodaUsername => "SKODA_USERNAME"
  | .skodaPassword => "SKODA_PASSWORD"
  | .skodaVin => "SKODA_VIN"
  | .mqttBroker => "MQTT_BROKER"
  | .mqttPort => "MQTT_PORT"
  | .mqttUsername => "MQTT_USERNAME"
  | .mqttPassword => "MQTT_PASSWORD"
  | .mqttTopicPrefix => "MQTT_TOPIC_PREFIX"
  | .pollInterval => "POLL_INTERVAL"
  | .commandTimeout => "COMMAND_TIMEOUT"
  | .haDiscovery => "HA_DISCOVERY"
  | .haDiscoveryPrefix => "HA_DISCOVERY_PREFIX"
  | .logLevel => "LOG_LEVEL"

/-- Config-file key of each setting (config.py lines 33-53). -/
def Setting.fileKey : Setting → String
  | .skodaUsername => "skoda_username"
  | .skodaPassword => "skoda_password"
  | .skodaVin => "skoda_vin"
  | .mqttBroker => "mqtt_broker"
  | .mqttPort => "mqtt_port"
  | .mqttUsername => "mqtt_username"
  | .mqttPassword => "mqtt_password"
  | .mqttTopicPrefix => "mqtt_topic_prefix"
  | .pollInterval => "poll_interval"
  | .commandTimeout => "command_timeout"
  | .haDiscovery => "ha_discovery"
  | .haDiscoveryPrefix => "ha_discovery_prefix"
  | .logLevel => "log_level"

/-- Built-in default of each setting (config.py lines 33-53). -/
def Setting.default : Setting → String
  | .skodaUsername => ""
  | .skodaPassword => ""
  | .skodaVin => ""
  | .mqttBroker => "127.0.0.1"
  | .mqttPort => "1883"
  | .mqttUsername => ""
  | .mqttPassword => ""
  | .mqttTopicPrefix => "skoda/enyaq"
  | .pollInterval => "300"
  | .commandTimeout => "30"
  | .haDiscovery => "true"
  | .haDiscoveryPrefix => "homeassistant"
  | .logLevel => "INFO"

/-- The raw (pre-conversion) value selected for a setting by
`Config.__init__`, i.e. `os.getenv(NAME, file_config.get(key, default))`. -/
def settingOf (env : KVMap) (fileExists : Bool) (file : KVMap)
    (s : Setting) : String :=
  cfgSelect env fileExists file s.envName s.fileKey s.default

/-- `Config.init` selects each field with `cfgSelect` on exactly the
name/key/default triples tabulated by `Setting`: successful construction
yields the converted `settingOf` values. (Shared supporting lemma.) -/
theorem Config.init_selects (env : KVMap) (fe : Bool) (file : KVMap)
    (c : Config) (h : Config.init env fe file = .ok c) :
    c.skoda_username = settingOf env fe file .skodaUsername ∧
    c.skoda_password = settingOf env fe file .skodaPassword ∧
    c.skoda_vin = settingOf env fe file .skodaVin ∧
    c.mqtt_broker = settingOf env fe file .mqttBroker ∧
    some c.mqtt_port = (settingOf env fe file .mqttPort).toInt? ∧
    c.mqtt_username = settingOf env fe file .mqttUsername ∧
    c.mqtt_password = settingOf env fe file .mqttPassword ∧
    c.mqtt_topic_prefix = settingOf env fe file .mqttTopicPrefix ∧
    some c.poll_interval = (settingOf env fe file .pollInterval).toInt? ∧
    some c.command_timeout = (settingOf env fe file .commandTimeout).toInt? ∧
    c.ha_discovery = ((settingOf env fe file .haDiscovery).toLower == "true") ∧
    c.ha_discovery_prefix = settingOf env fe file .haDiscoveryPrefix ∧
    c.log_level = (settingOf env fe file .logLevel).toUpper := by
  unfold Config.init at h
  dsimp only at h
  simp only [settingOf, Setting.envName, Setting.fileKey, Setting.default]
  split at h
  next port pollInterval commandTimeout hport hpoll hcmd =>
    split at h
    · exact absurd h (by simp)
    · injection h with h
      subst h
      simp_all
  next => exact absurd h (by simp)

/-- **C9.** For every configuration setting, a value set in the environment
takes precedence over the config file; the file value is used when the
environment variable is unset; the built-in default is used only when both
are absent; and a nonexistent config-file path is silently ignored,
equivalent to an empty config file. -/
theorem config_env_over_file_over_default :
    ∀ (s : Setting) (env file : KVMap) (fe : Bool) (v : String),
      settingOf (env.set s.envName v) fe file s = v ∧
      settingOf (env.unset s.envName) true (file.set s.fileKey v) s = v ∧
      settingOf (env.unset s.envName) fe (file.unset s.fileKey) s =
        s.default ∧
      Config.init env false file = Config.init env true KVMap.empty := by
  intro s env file fe v
  refine ⟨?_, ?_, ?_, rfl⟩ <;>
    cases s <;>
      simp [settingOf, cfgSelect, getenv, file_config, KVMap.set, KVMap.unset,
        Setting.envName, Setting.fileKey, Setting.default]

/-- **C10.** `Config.to_dict` with `include_secrets=False` contains no
credential fields; with `include_secrets=True` the password entries depend
only on whether each password is empty — two configs differing only in
non-empty password values produce identical dictionaries. -/
theorem to_dict_masks_passwords :
    ∀ c c2 : Config,
      ((Config.to_dict c false).map Prod.fst).all
        (fun k => !(credentialKeys.contains k)) = true ∧
      (c.skoda_username = c2.skoda_username →
       c.skoda_vin = c2.skoda_vin →
       c.mqtt_username = c2.mqtt_username →
       c.mqtt_broker = c2.mqtt_broker →
       c.mqtt_port = c2.mqtt_port →
       c.mqtt_topic_prefix = c2.mqtt_topic_prefix →
       c.poll_interval = c2.poll_interval →
       c.command_timeout = c2.command_timeout →
       c.ha_discovery = c2.ha_discovery →
       c.ha_discovery_prefix = c2.ha_discovery_prefix →
       c.log_level = c2.log_level →
       (c.skoda_password = "" ↔ c2.skoda_password = "") →
       (c.mqtt_password = "" ↔ c2.mqtt_password = "") →
       Config.to_dict c true = Config.to_dict c2 true) := by
  intro c c2
  constructor
  · rfl
  · intro h1 h2 h3 h4 h5 h6 h7 h8 h9 h10 h11 hsp hmp
    have hsp' : (c.skoda_password = "") = (c2.skoda_password = "") :=
      propext hsp
    have hmp' : (c.mqtt_password = "") = (c2.mqtt_password = "") :=
      propext hmp
    simp only [Config.to_dict, h1, h2, h3, h4, h5, h6, h7, h8, h9, h10, h11,
      ne_eq, hsp', hmp']

/-- Witness for C10: two concrete configs that differ only in their
(non-empty) password values serialize to the same dictionary. -/
theorem to_dict_masks_passwords_witness :
    Config.to_dict
      ⟨"u", "hunter2", "VIN1", "127.0.0.1", 1883, "mq", "mqttpw1",
        "skoda/enyaq", 300, 30, true, "homeassistant", "INFO"⟩ true =
    Config.to_dict
      ⟨"u", "swordfish", "VIN1", "127.0.0.1", 1883, "mq", "mqttpw2",
        "skoda/enyaq", 300, 30, true, "homeassistant", "INFO"⟩ true := by
  exact (to_dict_masks_passwords
      ⟨"u", "hunter2", "VIN1", "127.0.0.1", 1883, "mq", "mqttpw1",
        "skoda/enyaq", 300, 30, true, "homeassistant", "INFO"⟩
      ⟨"u", "swordfish", "VIN1", "127.0.0.1", 1883, "mq", "mqttpw2",
        "skoda/enyaq", 300, 30, true, "homeassistant", "INFO"⟩).2
    rfl rfl rfl rfl rfl rfl rfl rfl rfl rfl rfl (by simp) (by simp)

/-! ## Skoda API token manager (`skoda_api.py`, class `SkodaAPI`)

The token fields of the `SkodaAPI` object. `datetime.now()` is an `Int`
parameter (seconds); `timedelta(minutes=5)` is 300. Calls to the tracked
methods `authenticate` / `_refresh_token` are recorded in a trace, matching
the spec's call-count assertions. -/

/-- Python truthiness of an optional string: `None` and `''` are falsy. -/
def pyTruthy : Option String → Bool
  | none => false
  | some s => s ≠ ""

/-- Token fields of `SkodaAPI` (skoda_api.py lines 44-46). -/
structure SkodaAPIState where
  access_token : Option String
  refresh_token : Option String
  token_expires_at : Option Int
deriving DecidableEq, Repr

/-- Tracked upstream-auth method invocations. -/
inductive ApiCall where
  | authenticate
  | refreshToken
deriving DecidableEq, Repr

namespace SkodaAPI

/-- `SkodaAPI.authenticate` (skoda_api.py lines 53-92): the OAuth flow is a
placeholder — every token assignment is commented out, so the method logs,
returns `True`, and leaves the token state untouched. -/
def authenticate (s : SkodaAPIState) : SkodaAPIState × Bool :=
  (s, true)

/-- `SkodaAPI._refresh_token` (skoda_api.py lines 105-117): with no refresh
token, fall back to `authenticate()`; otherwise the placeholder refresh body
does nothing. Returns the new state and the trace of tracked calls it makes. -/
def refreshTokenFn (s : SkodaAPIState) : SkodaAPIState × List ApiCall :=
  if pyTruthy s.refresh_token = false then
    ((authenticate s).1, [.authenticate])
  else
    (s, [])

/-- `SkodaAPI._ensure_token_valid` (skoda_api.py lines 94-103): authenticate
when there is no (truthy) access token or no expiry; refresh when the token
expires within 5 minutes (or already has); otherwise do nothing. The trace
lists the tracked calls made (`_refresh_token`'s own fallback included). -/
def ensureTokenValid (now : Int) (s : SkodaAPIState) :
    SkodaAPIState × List ApiCall :=
  if pyTruthy s.access_token = false ∨ s.token_expires_at = none then
    ((authenticate s).1, [.authenticate])
  else if now ≥ s.token_expires_at.getD 0 - 300 then
    let r := refreshTokenFn s
    (r.1, .refreshToken :: r.2)
  else
    (s, [])

end SkodaAPI

/-! ## Claim C3 -/

/-- **C3.** `_ensure_token_valid`: with no (truthy) access token or no
expiry it calls `authenticate()`; with a token whose expiry is within the
5-minute margin (or past) it makes exactly one refresh attempt; with expiry
more than 5 minutes in the future it is a no-op — no authenticate or
refresh call, token state unchanged. -/
theorem ensure_token_valid_cases :
    ∀ (now e : Int) (s : SkodaAPIState),
      (pyTruthy s.access_token = false ∨ s.token_expires_at = none →
        SkodaAPI.ensureTokenValid now s = (s, [.authenticate])) ∧
      (pyTruthy s.access_token = true → s.token_expires_at = some e →
        now ≥ e - 300 →
        ((SkodaAPI.ensureTokenValid now s).2.count .refreshToken = 1 ∧
         (SkodaAPI.ensureTokenValid now s).2.count .authenticate ≤ 1)) ∧
      (pyTruthy s.access_token = true → s.token_expires_at = some e →
        now < e - 300 →
        SkodaAPI.ensureTokenValid now s = (s, [])) := by
  intro now e s
  refine ⟨?_, ?_, ?_⟩
  · intro h
    simp [SkodaAPI.ensureTokenValid, SkodaAPI.authenticate, h]
  · intro htok hexp hnow
    cases hr : pyTruthy s.refresh_token <;>
      simp [SkodaAPI.ensureTokenValid, SkodaAPI.refreshTokenFn,
        SkodaAPI.authenticate, htok, hexp, hnow, hr, List.count_cons]
  · intro htok hexp hnow
    have h' : ¬ now ≥ e - 300 := by omega
    simp [SkodaAPI.ensureTokenValid, htok, hexp, h']

/-- Witness for C3: the three cases at concrete token states — a fresh state
authenticates, a token expiring in 100 s refreshes exactly once, and a token
valid for another 4000 s is left alone with no calls. -/
theorem ensure_token_valid_cases_witness :
    SkodaAPI.ensureTokenValid 1000 ⟨none, none, none⟩ =
      (⟨none, none, none⟩, [.authenticate]) ∧
    (SkodaAPI.ensureTokenValid 1000
        ⟨some "tok", some "ref", some 1100⟩).2.count .refreshToken = 1 ∧
    SkodaAPI.ensureTokenValid 1000 ⟨some "tok", some "ref", some 5000⟩ =
      (⟨some "tok", some "ref", some 5000⟩, []) := by
  refine ⟨?_, ?_, ?_⟩
  · exact (ensure_token_valid_cases 1000 0 ⟨none, none, none⟩).1
      (Or.inl (by decide))
  · exact ((ensure_token_valid_cases 1000 1100
      ⟨some "tok", some "ref", some 1100⟩).2.1 (by decide) rfl
      (by decide)).1
  · exact (ensure_token_valid_cases 1000 5000
      ⟨some "tok", some "ref", some 5000⟩).2.2 (by decide) rfl (by decide)

/-! ## Claim C4

The spec says `authenticate()` on success sets `access_token`,
`refresh_token` and `expires_at`, matching the method's own docstring
("obtain access token") and the commented-out assignments in its body
(skoda_api.py lines 82-85). The code, however, is a placeholder: it returns
`True` without setting any field. The theorem below evaluates the code at
the failing input — a fresh client — showing `authenticate()` reports
success while every token field is still absent. (The spec's invariant "if
access_token is present then expires_at is present" does hold, vacuously,
since the stub never sets `access_token`.) -/

/-- **C4 (code bug).** On a fresh client, `authenticate()` returns `True`
("Authentication successful") yet sets none of the three token fields,
contradicting the claim that a successful return sets all of them. -/
theorem authenticate_stub_sets_no_fields :
    (SkodaAPI.authenticate ⟨none, none, none⟩).2 = true ∧
    (SkodaAPI.authenticate ⟨none, none, none⟩).1.access_token = none ∧
    (SkodaAPI.authenticate ⟨none, none, none⟩).1.refresh_token = none ∧
    (SkodaAPI.authenticate ⟨none, none, none⟩).1.token_expires_at = none := by
  exact ⟨rfl, rfl, rfl, rfl⟩

/-! ## Bridge orchestrator lifecycle (`main.py`, class `SkodaMQTTBridge`)

Every shutdown path of the bridge funnels through `SkodaMQTTBridge.stop`:
the OS-signal handler calls `self.stop()` (main.py line 53), and `start()`
runs `self.stop()` in its `finally` block (line 108), which is reached both
on explicit termination and when a fatal error escapes the startup/loop
body. So the shutdown ordering is the ordering inside `stop`. -/

/-- Lifecycle fields of `SkodaMQTTBridge` (main.py lines 30-33). -/
structure Bridge where
  running : Bool
  mqtt_client : Option MQTTClient
deriving DecidableEq, Repr

namespace SkodaMQTTBridge

/-- `SkodaMQTTBridge.stop` (main.py lines 110-122): return immediately when
not running; otherwise clear `running`, and — if an MQTT client exists —
publish `availability=false` and then disconnect. Returns the new bridge
state and the ordered list of emitted events. -/
def stop (b : Bridge) : Bridge × List Event :=
  if b.running = false then
    (b, [])
  else
    let b' : Bridge := { b with running := false }
    match b.mqtt_client with
    | some mc =>
      let d := mc.disconnect
      ({ b' with mqtt_client := some d.1 },
        (mc.publish_availability false).map Event.pub ++ d.2)
    | none => (b', [])

/-- The `signal_handler` closure of `_setup_signal_handlers` (main.py lines
51-53): log and call `self.stop()`. -/
def signal_handler (b : Bridge) : Bridge × List Event := stop b

end SkodaMQTTBridge

/-! ## Polling loop (`SkodaMQTTBridge._main_loop`, main.py lines 124-145)

`get_vehicle_status` may raise `SkodaAPIError` (its `except` clause wraps
any `requests` failure) or, in principle, any other exception; each loop
iteration's outcome at that boundary is an explicit `Except` parameter.
The loop's two `except` clauses become the `match` in `loopIter`. -/

/-- Exceptions a poll iteration can raise: `SkodaAPIError` or any other
unexpected error (`except Exception`). -/
inductive LoopErr where
  | skodaApi (msg : String)
  | other (msg : String)
deriving DecidableEq, Repr

namespace SkodaMQTTBridge

/-- The `try` block of one `_main_loop` iteration (main.py lines 129-138):
fetch the status, publish it, sleep for the configured poll interval —
or propagate the exception. -/
def loopIterBody (fetch : Except LoopErr StateData) (mqtt : MQTTClient)
    (poll_interval : Nat) : Except LoopErr (List Event) :=
  match fetch with
  | .ok status =>
    .ok ((mqtt.publish_state status).map Event.pub ++ [.sleep poll_interval])
  | .error e => .error e

/-- One full `_main_loop` iteration with its `except` clauses (main.py lines
140-145): a `SkodaAPIError` is logged and followed by `time.sleep(60)`, any
other exception likewise — nothing propagates. -/
def loopIter (fetch : Except LoopErr StateData) (mqtt : MQTTClient)
    (poll_interval : Nat) : List Event :=
  match loopIterBody fetch mqtt poll_interval with
  | .ok evs => evs
  | .error (.skodaApi m) => [.logErr ("API error: " ++ m), .sleep 60]
  | .error (.other m) =>
    [.logErr ("Unexpected error in main loop: " ++ m), .sleep 60]

/-- `_main_loop`'s `while self.running` over a given sequence of fetch
outcomes; `running` is only mutated by `stop`, outside the loop. -/
def mainLoop (running : Bool) (fetches : List (Except LoopErr StateData))
    (mqtt : MQTTClient) (poll_interval : Nat) : List Event :=
  match fetches with
  | [] => []
  | f :: fs =>
    if running then
      loopIter f mqtt poll_interval ++ mainLoop running fs mqtt poll_interval
    else []

end SkodaMQTTBridge

/-! ## Claim C6 -/

/-- **C6.** Every exception inside a poll iteration — `SkodaAPIError` or any
other unexpected error — is caught and logged, followed by a fixed 60-second
cooldown sleep independent of the configured poll interval; and for any
sequence of consecutive fetch failures the running loop survives them all
(one cooldown sleep per failure) while publishing nothing, so the retained
availability stays `online`. -/
theorem main_loop_catches_and_cools_down :
    ∀ (poll_interval : Nat) (mqtt : MQTTClient) (m : String)
      (errs : List LoopErr),
      SkodaMQTTBridge.loopIter (.error (.skodaApi m)) mqtt poll_interval =
        [.logErr ("API error: " ++ m), .sleep 60] ∧
      SkodaMQTTBridge.loopIter (.error (.other m)) mqtt poll_interval =
        [.logErr ("Unexpected error in main loop: " ++ m), .sleep 60] ∧
      (SkodaMQTTBridge.mainLoop true (errs.map Except.error) mqtt
          poll_interval).all (fun e => !e.isPub) = true ∧
      (SkodaMQTTBridge.mainLoop true (errs.map Except.error) mqtt
          poll_interval).count (.sleep 60) = errs.length := by
  intro poll_interval mqtt m errs
  refine ⟨rfl, rfl, ?_, ?_⟩ <;>
  · induction errs with
    | nil => simp [SkodaMQTTBridge.mainLoop]
    | cons e es ih =>
      cases e <;>
        simp_all [SkodaMQTTBridge.mainLoop, SkodaMQTTBridge.loopIter,
          SkodaMQTTBridge.loopIterBody, Event.isPub, List.count_cons]

/-! ## Claim C2 -/

/-- **C2.** On every shutdown path (all of which run `stop`, including the
signal handler), a running bridge with a bus client publishes the retained
`availability=offline` message strictly before the bus disconnect call —
the event list is exactly `[publish offline, disconnect]`; and `stop` is
idempotent: when the bridge is stopped or was never started it changes
nothing and publishes nothing, and a second `stop` after any `stop` is a
no-op. -/
theorem stop_publishes_offline_before_disconnect :
    ∀ (b : Bridge) (mc : MQTTClient),
      (b.running = true → b.mqtt_client = some mc →
        (SkodaMQTTBridge.stop b).2 =
          [.pub ⟨mc.topic_prefix ++ "/availability", .str "offline", true⟩,
           .disconnectBus]) ∧
      (b.running = false → SkodaMQTTBridge.stop b = (b, [])) ∧
      SkodaMQTTBridge.signal_handler b = SkodaMQTTBridge.stop b ∧
      SkodaMQTTBridge.stop (SkodaMQTTBridge.stop b).1 =
        ((SkodaMQTTBridge.stop b).1, []) := by
  intro b mc
  refine ⟨?_, ?_, rfl, ?_⟩
  · intro hrun hmc
    simp [SkodaMQTTBridge.stop, hrun, hmc, MQTTClient.disconnect,
      MQTTClient.publish_availability]
  · intro hrun
    simp [SkodaMQTTBridge.stop, hrun]
  · cases hrun : b.running
    · simp [SkodaMQTTBridge.stop, hrun]
    · cases hmc : b.mqtt_client <;>
        simp [SkodaMQTTBridge.stop, hrun, hmc]

/-- Witness for C2: a concrete running bridge emits exactly
`[publish offline, disconnect]`, and a never-started bridge's `stop` is a
no-op. -/
theorem stop_publishes_offline_before_disconnect_witness :
    (SkodaMQTTBridge.stop ⟨true, some ⟨"skoda/enyaq", true⟩⟩).2 =
      [.pub ⟨"skoda/enyaq/availability", .str "offline", true⟩,
       .disconnectBus] ∧
    SkodaMQTTBridge.stop ⟨false, none⟩ = (⟨false, none⟩, []) := by
  refine ⟨?_, ?_⟩
  · exact (stop_publishes_offline_before_disconnect
      ⟨true, some ⟨"skoda/enyaq", true⟩⟩ ⟨"skoda/enyaq", true⟩).1 rfl rfl
  · exact (stop_publishes_offline_before_disconnect
      ⟨false, none⟩ ⟨"skoda/enyaq", true⟩).2.1 rfl

/-! ## Command topic parsing and dispatch
(`MQTTClient._on_message`, mqtt_client.py lines 98-115)

`_on_message` extracts the command with
`topic.replace(f"{self.topic_prefix}/command/", "")` — Python's
`str.replace`, which removes **every** occurrence of the pattern. We model
strings at the character-list level to reason about it. -/

/-- Python `s.replace(pat, '')` on character lists: remove every
non-overlapping occurrence of `pat`, scanning left to right. -/
def replaceAll (pat : List Char) : List Char → List Char
  | [] => []
  | a :: rest =>
    if h : pat ≠ [] ∧ pat.isPrefixOf (a :: rest) then
      replaceAll pat ((a :: rest).drop pat.length)
    else
      a :: replaceAll pat rest
termination_by s => s.length
decreasing_by
  · have hlen : 0 < pat.length := List.length_pos.mpr h.1
    simp only [List.length_drop, List.length_cons]
    omega
  · simp

/-- Python `pat in s` on character lists: does `pat` occur in `s`? -/
def containsSeq (pat : List Char) : List Char → Bool
  | [] => pat.isPrefixOf []
  | a :: rest => pat.isPrefixOf (a :: rest) || containsSeq pat rest

/-- A list is a `isPrefixOf`-prefix of itself followed by anything. -/
theorem isPrefixOf_append_self (l s : List Char) :
    l.isPrefixOf (l ++ s) = true := by
  induction l with
  | nil => simp [List.isPrefixOf]
  | cons a t ih => simp [List.isPrefixOf, ih]

/-- Removing a leading occurrence: `replaceAll` eats an exact pattern at the
front and continues on the rest. -/
theorem replaceAll_append (pat s : List Char) (hp : pat ≠ []) :
    replaceAll pat (pat ++ s) = replaceAll pat s := by
  obtain ⟨a, t, rfl⟩ : ∃ a t, pat = a :: t := by
    cases pat with
    | nil => exact absurd rfl hp
    | cons a t => exact ⟨a, t, rfl⟩
  show replaceAll (a :: t) (a :: (t ++ s)) = replaceAll (a :: t) s
  rw [replaceAll, dif_pos ⟨hp, by
    have h1 := isPrefixOf_append_self (a :: t) s
    simp only [List.cons_append] at h1
    exact h1⟩]
  congr 1
  exact List.drop_left (a :: t) s

/-- If `pat` does not occur in `s`, `replaceAll` leaves `s` unchanged. -/
theorem replaceAll_of_containsSeq_false (pat : List Char) :
    ∀ s : List Char, containsSeq pat s = false → replaceAll pat s = s := by
  intro s
  induction s with
  | nil => intro _; simp [replaceAll]
  | cons a rest ih =>
    intro h
    have h' : (pat.isPrefixOf (a :: rest) || containsSeq pat rest) = false := h
    have h1 : pat.isPrefixOf (a :: rest) = false := by
      cases hp : pat.isPrefixOf (a :: rest) <;> simp_all
    have h2 : containsSeq pat rest = false := by
      cases hc : containsSeq pat rest <;> simp_all
    rw [replaceAll, dif_neg, ih h2]
    rintro ⟨-, hp⟩
    rw [h1] at hp
    exact Bool.false_ne_true hp

/-- The in-memory state a command handler can touch: the `SkodaAPI` token
fields and the MQTT client. -/
structure BState where
  api : SkodaAPIState
  mqtt : MQTTClient
deriving DecidableEq, Repr

/-- A command callback: receives the (decoded, unparsed) payload and the
bridge state; returns the new state, the emitted events, and `some msg`
when the handler body raises (escaping the handler). -/
def Handler : Type :=
  String → BState → BState × List Event × Option String

/-- The command extraction of `_on_message` (mqtt_client.py line 107):
`topic.replace(f"{self.topic_prefix}/command/", "")`. -/
def extractCommand (pre topic : String) : String :=
  ⟨replaceAll (pre ++ "/command/").data topic.data⟩

/-- `MQTTClient._on_message` (mqtt_client.py lines 98-115): inside a
`try/except` that catches everything, check the topic matches
`<prefix>/command/`, extract the command name, and call the registered
callback if any; an unknown command is logged and dropped; an exception
escaping the callback is caught and logged. -/
def onMessage (cbs : List (String × Handler)) (pre topic payload : String)
    (st : BState) : BState × List Event :=
  if (pre ++ "/command/").data.isPrefixOf topic.data then
    let command := extractCommand pre topic
    match cbs.lookup command with
    | some handler =>
      match handler payload st with
      | (st', evs, none) => (st', evs)
      | (st', evs, some e) =>
        (st', evs ++ [.logErr ("Error processing message: " ++ e)])
    | none =>
      (st, [.logWarn ("No handler registered for command: " ++ command)])
  else
    (st, [])

/-- On a well-formed command topic whose command segment does not itself
contain `<prefix>/command/`, the extracted command is exactly that segment.
(Shared supporting lemma; `str.replace` removes all occurrences, hence the
proviso.) -/
theorem extractCommand_append (pre c : String)
    (h : containsSeq (pre ++ "/command/").data c.data = false) :
    extractCommand pre (pre ++ "/command/" ++ c) = c := by
  have h9 : ("/command/" : String).data ≠ [] := by decide
  have hpat : (pre ++ "/command/").data ≠ [] := by
    rw [String.data_append]
    intro hh
    exact h9 (List.append_eq_nil.mp hh).2
  apply String.ext
  show replaceAll (pre ++ "/command/").data (pre ++ "/command/" ++ c).data
      = c.data
  rw [String.data_append (pre ++ "/command/") c, replaceAll_append _ _ hpat,
    replaceAll_of_containsSeq_false _ _ h]

/-! ## Vehicle API operations and the bridge's command handlers

The four write operations and `get_vehicle_status` (skoda_api.py lines
119-226) each call `_ensure_token_valid()` first and wrap a placeholder
request in `try/except`, raising `SkodaAPIError` on failure. Whether the
underlying request fails is an explicit oracle (`Option String`: the
cause), since the committed placeholder bodies never do. -/

namespace SkodaAPI

/-- Shared shape of the four write operations (skoda_api.py lines 155-226):
ensure the token is valid, then issue the placeholder request; on failure
raise `SkodaAPIError` with the operation's message and the cause. Returns
the token state, the tracked-call trace, and the outcome. -/
def commandOp (failMsg : String) (beh : Option String) (now : Int)
    (s : SkodaAPIState) : SkodaAPIState × List ApiCall × Except String Bool :=
  let e := ensureTokenValid now s
  match beh with
  | none => (e.1, e.2, .ok true)
  | some cause => (e.1, e.2, .error (failMsg ++ cause))

/-- `SkodaAPI.start_charging` (skoda_api.py lines 155-175). -/
def start_charging : Option String → Int → SkodaAPIState →
    SkodaAPIState × List ApiCall × Except String Bool :=
  commandOp "Failed to start charging: "

/-- `SkodaAPI.stop_charging` (skoda_api.py lines 177-192). -/
def stop_charging : Option String → Int → SkodaAPIState →
    SkodaAPIState × List ApiCall × Except String Bool :=
  commandOp "Failed to stop charging: "

/-- `SkodaAPI.lock_vehicle` (skoda_api.py lines 194-209). -/
def lock_vehicle : Option String → Int → SkodaAPIState →
    SkodaAPIState × List ApiCall × Except String Bool :=
  commandOp "Failed to lock vehicle: "

/-- `SkodaAPI.unlock_vehicle` (skoda_api.py lines 211-226). -/
def unlock_vehicle : Option String → Int → SkodaAPIState →
    SkodaAPIState × List ApiCall × Except String Bool :=
  commandOp "Failed to unlock vehicle: "

/-- The hardcoded example status returned by `get_vehicle_status`
(skoda_api.py lines 138-149); `last_updated` is the stringified current
time (`datetime.now().isoformat()`). -/
def mockStatus (now : Int) : StateData :=
  ⟨some ⟨some 75, some 280, some false, some true⟩, some ⟨some true⟩,
    some (toString now)⟩

/-- `SkodaAPI.get_vehicle_status` (skoda_api.py lines 119-153). -/
def get_vehicle_status (beh : Option String) (now : Int) (s : SkodaAPIState) :
    SkodaAPIState × List ApiCall × Except String StateData :=
  let e := ensureTokenValid now s
  match beh with
  | none => (e.1, e.2, .ok (mockStatus now))
  | some cause => (e.1, e.2, .error ("Failed to get vehicle status: " ++ cause))

end SkodaAPI

/-- Failure oracle for one command handling: does the write operation raise,
and does the follow-up status fetch raise. -/
structure ApiBeh where
  commandFails : Option String
  statusFails : Option String

namespace SkodaMQTTBridge

/-- Shared shape of the four handler closures of
`_register_command_handlers` (main.py lines 151-189): inside `try/except`,
issue the API write operation, then immediately fetch and publish the
status; any exception is caught and logged, so the handler itself never
raises (third component always `none`). -/
def commandHandler
    (op : Option String → Int → SkodaAPIState →
      SkodaAPIState × List ApiCall × Except String Bool)
    (logPre : String) (beh : ApiBeh) (now : Int) : Handler :=
  fun _payload st =>
    let r1 := op beh.commandFails now st.api
    match r1.2.2 with
    | .error e => ({ st with api := r1.1 }, [.logErr (logPre ++ e)], none)
    | .ok _ =>
      let r2 := SkodaAPI.get_vehicle_status beh.statusFails now r1.1
      match r2.2.2 with
      | .error e => ({ st with api := r2.1 }, [.logErr (logPre ++ e)], none)
      | .ok status =>
        ({ st with api := r2.1 },
          (st.mqtt.publish_state status).map Event.pub, none)

/-- `handle_start_charging` (main.py lines 151-159). -/
def handle_start_charging : ApiBeh → Int → Handler :=
  commandHandler SkodaAPI.start_charging "Failed to start charging: "

/-- `handle_stop_charging` (main.py lines 161-169). -/
def handle_stop_charging : ApiBeh → Int → Handler :=
  commandHandler SkodaAPI.stop_charging "Failed to stop charging: "

/-- `handle_lock` (main.py lines 171-179). -/
def handle_lock : ApiBeh → Int → Handler :=
  commandHandler SkodaAPI.lock_vehicle "Failed to lock vehicle: "

/-- `handle_unlock` (main.py lines 181-189). -/
def handle_unlock : ApiBeh → Int → Handler :=
  commandHandler SkodaAPI.unlock_vehicle "Failed to unlock vehicle: "

/-- `_register_command_handlers` (main.py lines 191-194): the name → handler
mapping registered with the MQTT client. -/
def register_command_handlers (beh : ApiBeh) (now : Int) :
    List (String × Handler) :=
  [("start_charging", handle_start_charging beh now),
   ("stop_charging", handle_stop_charging beh now),
   ("lock", handle_lock beh now),
   ("unlock", handle_unlock beh now)]

end SkodaMQTTBridge

/-- Evaluation of `_on_message` on a well-formed command topic
`<prefix>/command/<c>` (command segment not itself containing the pattern):
the prefix check passes, the extracted command is `c`, and the dispatch
reduces to the callback lookup. (Shared supporting lemma.) -/
theorem onMessage_command_topic (cbs : List (String × Handler))
    (pre c payload : String) (st : BState)
    (hc : containsSeq (pre ++ "/command/").data c.data = false) :
    onMessage cbs pre (pre ++ "/command/" ++ c) payload st =
      (match cbs.lookup c with
       | some handler =>
         match handler payload st with
         | (st', evs, none) => (st', evs)
         | (st', evs, some e) =>
           (st', evs ++ [.logErr ("Error processing message: " ++ e)])
       | none =>
         (st, [.logWarn ("No handler registered for command: " ++ c)])) := by
  have hpre : (pre ++ "/command/").data.isPrefixOf
      (pre ++ "/command/" ++ c).data = true := by
    rw [String.data_append (pre ++ "/command/") c]
    exact isPrefixOf_append_self _ _
  unfold onMessage
  rw [if_pos hpre, extractCommand_append pre c hc]

/-! ## Claim C5 -/

/-- A probe callback used by concrete dispatch scenarios: records the
payload it was invoked with and raises nothing. -/
def probeHandler : Handler :=
  fun payload st => (st, [Event.logInfo payload], none)

/-- **C5 counterexample.** The bridge does *not* use `cmd/`: the
subscription issued on connect is `skoda/enyaq/command/#`, which differs
from the claimed `skoda/enyaq/cmd/#`; and a message on
`skoda/enyaq/cmd/lock` dispatches nothing even with a `lock` handler
registered. -/
theorem subscribe_topic_not_cmd :
    MQTTClient.subscribeTopic ⟨"skoda/enyaq", true⟩ =
      "skoda/enyaq/command/#" ∧
    MQTTClient.subscribeTopic ⟨"skoda/enyaq", true⟩ ≠ "skoda/enyaq/cmd/#" ∧
    onMessage [("lock", probeHandler)] "skoda/enyaq" "skoda/enyaq/cmd/lock"
        "GO" ⟨⟨none, none, none⟩, ⟨"skoda/enyaq", true⟩⟩ =
      (⟨⟨none, none, none⟩, ⟨"skoda/enyaq", true⟩⟩, []) := by
  refine ⟨rfl, by decide, ?_⟩
  have hpre : ("skoda/enyaq" ++ "/command/").data.isPrefixOf
      ("skoda/enyaq/cmd/lock" : String).data = false := by decide
  unfold onMessage
  rw [hpre]
  simp

/-- **C5 (amended).** The bridge subscribes to `<prefix>/command/#`; for a
message on `<prefix>/command/<command>` (whose command segment does not
itself contain `<prefix>/command/` — `str.replace` removes every
occurrence), the command name passed to the dispatcher is exactly the path
segment after `command/`, and the payload is handed to the registered
handler unchanged and unparsed. -/
theorem command_topic_structure :
    ∀ (mc : MQTTClient) (pre c payload : String)
      (cbs : List (String × Handler)) (st st' : BState) (evs : List Event)
      (h : Handler),
      mc.subscribeTopic = mc.topic_prefix ++ "/command/#" ∧
      (containsSeq (pre ++ "/command/").data c.data = false →
        extractCommand pre (pre ++ "/command/" ++ c) = c ∧
        (cbs.lookup c = some h → h payload st = (st', evs, none) →
          onMessage cbs pre (pre ++ "/command/" ++ c) payload st =
            (st', evs))) := by
  intro mc pre c payload cbs st st' evs h
  refine ⟨rfl, fun hc => ⟨extractCommand_append pre c hc, fun hl hh => ?_⟩⟩
  rw [onMessage_command_topic cbs pre c payload st hc, hl]
  simp [hh]

/-- Witness for C5: with a `lock` handler registered, a message on
`skoda/enyaq/command/lock` with payload `"GO"` invokes the handler with
exactly that payload. -/
theorem command_topic_structure_witness :
    extractCommand "skoda/enyaq" ("skoda/enyaq" ++ "/command/" ++ "lock") =
      "lock" ∧
    onMessage [("lock", probeHandler)] "skoda/enyaq"
        ("skoda/enyaq" ++ "/command/" ++ "lock") "GO"
        ⟨⟨none, none, none⟩, ⟨"skoda/enyaq", true⟩⟩ =
      (⟨⟨none, none, none⟩, ⟨"skoda/enyaq", true⟩⟩, [Event.logInfo "GO"]) := by
  refine ⟨?_, ?_⟩
  · exact ((command_topic_structure ⟨"skoda/enyaq", true⟩ "skoda/enyaq"
      "lock" "GO" [("lock", probeHandler)]
      ⟨⟨none, none, none⟩, ⟨"skoda/enyaq", true⟩⟩
      ⟨⟨none, none, none⟩, ⟨"skoda/enyaq", true⟩⟩
      [Event.logInfo "GO"] probeHandler).2 (by decide)).1
  · exact ((command_topic_structure ⟨"skoda/enyaq", true⟩ "skoda/enyaq"
      "lock" "GO" [("lock", probeHandler)]
      ⟨⟨none, none, none⟩, ⟨"skoda/enyaq", true⟩⟩
      ⟨⟨none, none, none⟩, ⟨"skoda/enyaq", true⟩⟩
      [Event.logInfo "GO"] probeHandler).2 (by decide)).2 rfl rfl

/-! ## Claim C7 -/

/-- A callback whose body raises, for the exception-handling scenarios. -/
def failingHandler : Handler :=
  fun _ st => (st, [], some "boom")

/-- **C7.** Dispatching a command with no registered handler does not raise,
invokes nothing, and leaves the bridge state — token fields and all —
unchanged (the message is logged and dropped, with no publish); dispatching
a registered name invokes that handler synchronously; an exception escaping
a raw handler is caught inside `_on_message` and never propagates; and the
four handlers the bridge registers catch their own internal exceptions, so
they never raise for any failure behaviour of the upstream API. -/
theorem dispatch_unknown_dropped_exceptions_caught :
    ∀ (cbs : List (String × Handler)) (pre c payload err : String)
      (st st' : BState) (evs : List Event) (h : Handler) (beh : ApiBeh)
      (now : Int),
      (containsSeq (pre ++ "/command/").data c.data = false →
        (cbs.lookup c = none →
          onMessage cbs pre (pre ++ "/command/" ++ c) payload st =
            (st, [.logWarn ("No handler registered for command: " ++ c)])) ∧
        (cbs.lookup c = some h →
          (h payload st = (st', evs, none) →
            onMessage cbs pre (pre ++ "/command/" ++ c) payload st =
              (st', evs)) ∧
          (h payload st = (st', evs, some err) →
            onMessage cbs pre (pre ++ "/command/" ++ c) payload st =
              (st', evs ++
                [.logErr ("Error processing message: " ++ err)])))) ∧
      (SkodaMQTTBridge.handle_start_charging beh now payload st).2.2 = none ∧
      (SkodaMQTTBridge.handle_stop_charging beh now payload st).2.2 = none ∧
      (SkodaMQTTBridge.handle_lock beh now payload st).2.2 = none ∧
      (SkodaMQTTBridge.handle_unlock beh now payload st).2.2 = none := by
  intro cbs pre c payload err st st' evs h beh now
  refine ⟨fun hc => ⟨fun hl => ?_, fun hl => ⟨fun hh => ?_, fun hh => ?_⟩⟩,
    ?_, ?_, ?_, ?_⟩
  · rw [onMessage_command_topic cbs pre c payload st hc, hl]
  · rw [onMessage_command_topic cbs pre c payload st hc, hl]
    simp [hh]
  · rw [onMessage_command_topic cbs pre c payload st hc, hl]
    simp [hh]
  all_goals
    obtain ⟨bc, bs⟩ := beh
    cases bc <;> cases bs <;>
      simp [SkodaMQTTBridge.handle_start_charging,
        SkodaMQTTBridge.handle_stop_charging, SkodaMQTTBridge.handle_lock,
        SkodaMQTTBridge.handle_unlock, SkodaMQTTBridge.commandHandler,
        SkodaAPI.commandOp, SkodaAPI.start_charging, SkodaAPI.stop_charging,
        SkodaAPI.lock_vehicle, SkodaAPI.unlock_vehicle,
        SkodaAPI.get_vehicle_status]

/-- Witness for C7: an unknown command `honk` is dropped with the bridge
state unchanged, and a handler that raises is caught and logged. -/
theorem dispatch_unknown_dropped_exceptions_caught_witness :
    onMessage [("lock", probeHandler)] "skoda/enyaq"
        ("skoda/enyaq" ++ "/command/" ++ "honk") "GO"
        ⟨⟨none, none, none⟩, ⟨"skoda/enyaq", true⟩⟩ =
      (⟨⟨none, none, none⟩, ⟨"skoda/enyaq", true⟩⟩,
        [.logWarn "No handler registered for command: honk"]) ∧
    onMessage [("lock", failingHandler)] "skoda/enyaq"
        ("skoda/enyaq" ++ "/command/" ++ "lock") "GO"
        ⟨⟨none, none, none⟩, ⟨"skoda/enyaq", true⟩⟩ =
      (⟨⟨none, none, none⟩, ⟨"skoda/enyaq", true⟩⟩,
        [.logErr "Error processing message: boom"]) := by
  refine ⟨?_, ?_⟩
  · exact ((dispatch_unknown_dropped_exceptions_caught
      [("lock", probeHandler)] "skoda/enyaq" "honk" "GO" "boom"
      ⟨⟨none, none, none⟩, ⟨"skoda/enyaq", true⟩⟩
      ⟨⟨none, none, none⟩, ⟨"skoda/enyaq", true⟩⟩ [] probeHandler
      ⟨none, none⟩ 0).1 (by decide)).1 rfl
  · exact (((dispatch_unknown_dropped_exceptions_caught
      [("lock", failingHandler)] "skoda/enyaq" "lock" "GO" "boom"
      ⟨⟨none, none, none⟩, ⟨"skoda/enyaq", true⟩⟩
      ⟨⟨none, none, none⟩, ⟨"skoda/enyaq", true⟩⟩ [] failingHandler
      ⟨none, none⟩ 0).1 (by decide)).2 rfl).2 rfl

/-! ## Reading back the retained state (claim C1)

`publish_state` publishes the snapshot field-by-field to six retained
topics — there is no single `<prefix>/state` JSON document in the code.
The retained-message semantics of the bus is modelled by `retainedAt`: a
late subscriber reads, per topic, the payload of the last retained publish.
`readSnapshot` decodes the six per-field topics back into a `StateData`. -/

/-- The retained value a subscriber reads on `topic` after `pubs` were
issued: the payload of the most recent retained publish to that topic. -/
def retainedAt (pubs : List Pub) (topic : String) : Option PayloadV :=
  (pubs.reverse.find? (fun pb => pb.topic == topic && pb.retain)).map
    Pub.payload

/-- Decode the `'ON'`/`'OFF'` encoding used for booleans. -/
def decodeOnOff : PayloadV → Option Bool
  | .str s => if s = "ON" then some true
              else if s = "OFF" then some false else none
  | _ => none

/-- Decode the `'LOCKED'`/`'UNLOCKED'` encoding of the door state. -/
def decodeLockState : PayloadV → Option Bool
  | .str s => if s = "LOCKED" then some true
              else if s = "UNLOCKED" then some false else none
  | _ => none

/-- Decode a numeric payload. -/
def decodeInt : PayloadV → Option Int
  | .int n => some n
  | _ => none

/-- Decode a string payload. -/
def decodeStr : PayloadV → Option String
  | .str s => some s
  | _ => none

/-- Reassemble a snapshot from the retained per-field topics under `pre`. -/
def readSnapshot (pre : String) (pubs : List Pub) : StateData :=
  { battery :=
      match (retainedAt pubs (pre ++ "/battery/soc")).bind decodeInt,
          (retainedAt pubs (pre ++ "/battery/range")).bind decodeInt,
          (retainedAt pubs (pre ++ "/battery/charging")).bind decodeOnOff,
          (retainedAt pubs (pre ++ "/battery/plugged_in")).bind decodeOnOff
        with
      | some soc, some range_km, some charging, some plugged_in =>
        some ⟨some soc, some range_km, some charging, some plugged_in⟩
      | _, _, _, _ => none
    doors :=
      ((retainedAt pubs (pre ++ "/doors/locked")).bind decodeLockState).map
        (fun locked => ⟨some locked⟩)
    last_updated :=
      (retainedAt pubs (pre ++ "/last_updated")).bind decodeStr }

/-- Appending distinct suffixes to the same string yields distinct strings. -/
theorem string_append_ne (p x y : String) (h : x ≠ y) : p ++ x ≠ p ++ y := by
  intro he
  apply h
  have hd := congrArg String.data he
  rw [String.data_append, String.data_append] at hd
  exact String.ext (List.append_cancel_left hd)

/-- **C1 counterexample.** A successful publish of a full, valid snapshot
issues six per-field messages and none of them is on the
`skoda/enyaq/state` topic: there is no single-JSON-document state topic. -/
theorem no_single_state_topic :
    (MQTTClient.publish_state ⟨"skoda/enyaq", true⟩
        ⟨some ⟨some 75, some 280, some false, some true⟩, some ⟨some true⟩,
          some "2026-01-01T00:00:00"⟩).length = 6 ∧
    (MQTTClient.publish_state ⟨"skoda/enyaq", true⟩
        ⟨some ⟨some 75, some 280, some false, some true⟩, some ⟨some true⟩,
          some "2026-01-01T00:00:00"⟩).all
      (fun pb => pb.topic != "skoda/enyaq/state") = true := by
  refine ⟨rfl, by decide⟩

/-- **C1 (amended).** A valid snapshot is published as six retained
per-field messages under `<prefix>/battery/...`, `<prefix>/doors/locked`
and `<prefix>/last_updated` (not as one `<prefix>/state` document), and
reading the retained per-field topics back yields exactly the published
snapshot — the encoding is lossless. -/
theorem publish_state_roundtrip :
    ∀ (p : String) (soc range_km : Int) (charging plugged locked : Bool)
      (ts : String),
      (MQTTClient.publish_state ⟨p, true⟩
          ⟨some ⟨some soc, some range_km, some charging, some plugged⟩,
            some ⟨some locked⟩, some ts⟩).all (fun pb => pb.retain) = true ∧
      readSnapshot p
          (MQTTClient.publish_state ⟨p, true⟩
            ⟨some ⟨some soc, some range_km, some charging, some plugged⟩,
              some ⟨some locked⟩, some ts⟩) =
        ⟨some ⟨some soc, some range_km, some charging, some plugged⟩,
          some ⟨some locked⟩, some ts⟩ := by
  intro p soc range_km charging plugged locked ts
  have hne : ∀ x y : String, x ≠ y → ((p ++ x == p ++ y) : Bool) = false :=
    fun x y h => beq_eq_false_iff_ne.mpr (string_append_ne p x y h)
  have h01 := hne "/last_updated" "/battery/soc" (by decide)
  have h02 := hne "/doors/locked" "/battery/soc" (by decide)
  have h03 := hne "/battery/plugged_in" "/battery/soc" (by decide)
  have h04 := hne "/battery/charging" "/battery/soc" (by decide)
  have h05 := hne "/battery/range" "/battery/soc" (by decide)
  have h06 := hne "/last_updated" "/battery/range" (by decide)
  have h07 := hne "/doors/locked" "/battery/range" (by decide)
  have h08 := hne "/battery/plugged_in" "/battery/range" (by decide)
  have h09 := hne "/battery/charging" "/battery/range" (by decide)
  have h10 := hne "/last_updated" "/battery/charging" (by decide)
  have h11 := hne "/doors/locked" "/battery/charging" (by decide)
  have h12 := hne "/battery/plugged_in" "/battery/charging" (by decide)
  have h13 := hne "/last_updated" "/battery/plugged_in" (by decide)
  have h14 := hne "/doors/locked" "/battery/plugged_in" (by decide)
  have h15 := hne "/last_updated" "/doors/locked" (by decide)
  refine ⟨?_, ?_⟩
  · simp [MQTTClient.publish_state]
  · cases charging <;> cases plugged <;> cases locked <;>
      simp [MQTTClient.publish_state, readSnapshot, retainedAt, List.find?,
        h01, h02, h03, h04, h05, h06, h07, h08, h09, h10, h11, h12, h13, h14,
        h15, decodeInt, decodeOnOff, decodeLockState, decodeStr]

end MySkoda
